import Mathlib

/-!
Verification of the schema-user command layer (internal/command/user_v3.go)
and the limits projection fold of the zitadel event-sourcing core.

The command pipeline from user_v3.go is translated faithfully; collaborators
and write-model methods whose sources are not part of the repository slice
(NewCreate, NewUpdate, NewDelete, the write-model folds, the limits
reducers, email/phone format validation) are modelled from the spec and
pinned down by the behaviour fixed in the unit tests.
-/

namespace Zitadel

/-- JSON scalar values, enough for schema-user data payloads. -/
inductive JsonVal where
  | str (s : String)
  | num (n : Int)
  | boolean (b : Bool)
  | null
deriving DecidableEq

/-- A JSON object as an association list of attribute name to value. -/
abbrev JsonObj := List (String × JsonVal)

/-- Error kinds of the zerrors package used by the command layer. -/
inductive ErrKind where
  | invalidArgument
  | notFound
  | permissionDenied
  | preconditionFailed
  | internal
deriving DecidableEq

/-- A zerrors error: kind plus the unique id and message key from the source. -/
structure ZError where
  kind : ErrKind
  id : String
  message : String
deriving DecidableEq

/-- Result of a fallible step, mirroring the (value, error) pairs of the Go code. -/
inductive Res (α : Type) where
  | ok (a : α)
  | err (e : ZError)
deriving DecidableEq

/-- The error kind carried by a result, none on success. -/
def Res.errKind {α : Type} : Res α → Option ErrKind
  | .ok _ => none
  | .err e => some e.kind

/-- True iff the result is a success. -/
def Res.isOk {α : Type} : Res α → Bool
  | .ok _ => true
  | .err _ => false

/-- Email intent as in the command package: address plus verification options. -/
structure Email where
  address : String := ""
  verified : Bool := false
  returnCode : Bool := false
  urlTemplate : String := ""
deriving DecidableEq

/-- Phone intent as in the command package. -/
structure Phone where
  number : String := ""
  verified : Bool := false
  returnCode : Bool := false
deriving DecidableEq

/-- Modelled from the spec: domain.EmailAddress.Validate is not part of the
repository slice; the tests fix that a malformed address (one without the
at sign) fails with InvalidArgument EMAIL-599BI. -/
def Email.validateAddress (addr : String) : Option ZError :=
  if addr.data.contains '@' then none
  else some ⟨.invalidArgument, "EMAIL-599BI", "Errors.User.Email.Invalid"⟩

/-- Modelled from the spec: domain.PhoneNumber.Normalize is not part of the
repository slice; the tests fix that an unnormalizable number fails with
InvalidArgument PHONE-so0wa, and a number in international form is kept. -/
def Phone.normalizeNumber (n : String) : Res String :=
  if n.data.head? = some '+' then .ok n
  else .err ⟨.invalidArgument, "PHONE-so0wa", "Errors.User.Phone.Invalid"⟩

/-- JSON scalar types a schema field can require. -/
inductive JsonType where
  | string
  | number
  | boolean
deriving DecidableEq

/-- Whether a value has the given JSON type. -/
def JsonType.matches : JsonType → JsonVal → Bool
  | .string, .str _ => true
  | .number, .num _ => true
  | .boolean, .boolean _ => true
  | _, _ => false

/-- The role under which data is written: the user themself or the resource
owner / manager acting on the user. -/
inductive SchemaRole where
  | owner
  | selfRole
deriving DecidableEq

/-- A field-permission annotation (urn:zitadel:schema:permission) with one
grant string per role; an absent role means no grant. -/
structure FieldPermission where
  owner : String := ""
  self : String := ""
deriving DecidableEq

/-- Grant string of a permission annotation for a role. -/
def FieldPermission.grant (p : FieldPermission) : SchemaRole → String
  | .owner => p.owner
  | .selfRole => p.self

/-- Modelled from the spec: FieldWritable(actorRole, fieldPermission); a field
without an annotation is writable, an annotated one only when the role's
grant string contains the write flag. -/
def fieldWritable (role : SchemaRole) : Option FieldPermission → Bool
  | none => true
  | some p => (p.grant role).data.contains 'w'

/-- One declared property of a user schema. -/
structure SchemaField where
  name : String
  type : JsonType
  permission : Option FieldPermission := none
deriving DecidableEq

/-- Modelled from the spec: the JSON schema shape the tests exercise, with
typed properties, field-permission annotations and additionalProperties. -/
structure JsonSchema where
  fields : List SchemaField := []
  additionalProperties : Bool := true
deriving DecidableEq

/-- Check a single data attribute against the schema: a declared field must
match its type and be writable for the role; an undeclared one is allowed
iff additionalProperties is not disabled. -/
def JsonSchema.checkField (s : JsonSchema) (role : SchemaRole) (kv : String × JsonVal) : Bool :=
  match s.fields.find? (fun f => f.name == kv.1) with
  | some f => f.type.matches kv.2 && fieldWritable role f.permission
  | none => s.additionalProperties

/-- Modelled from the spec: validation of user data against a schema under a
role, the business-rule check behind PreconditionFailed COMMAND-SlKXqLSeL6. -/
def JsonSchema.validateData (s : JsonSchema) (role : SchemaRole) (d : JsonObj) : Bool :=
  d.all (s.checkField role)

/-- A change listed in a schema aggregate update event. -/
inductive SchemaChange where
  | increaseRevision (n : Nat)
  | changeSchema (s : JsonSchema)
deriving DecidableEq

/-- Events of the user-schema aggregate, as produced in the tests. -/
inductive SchemaEvent where
  | created (ty : String) (schema : JsonSchema)
  | updated (changes : List SchemaChange)
  | deleted
deriving DecidableEq

/-- A change listed in a schema-user update event (schemauser.Changes). -/
inductive UserChange where
  | schemaID (id : String)
  | schemaRevision (rev : Nat)
  | data (d : JsonObj)
deriving DecidableEq

/-- Events of the schemauser aggregate. Code-added events persist only the
encrypted form of the verification code. -/
inductive UserEvent where
  | created (resourceOwner : String) (schemaID : String) (schemaRevision : Nat) (data : JsonObj)
  | updated (changes : List UserChange)
  | deleted
  | emailUpdated (address : String)
  | emailVerified
  | emailCodeAdded (encrypted : String) (expiry : Nat) (urlTemplate : String) (returnCode : Bool)
  | phoneUpdated (number : String)
  | phoneVerified
  | phoneCodeAdded (encrypted : String) (expiry : Nat) (returnCode : Bool)
deriving DecidableEq

/-- Write model of the user-schema aggregate: folded existence state, type,
revision and schema document. Modelled from the spec: the fold itself
(UserSchemaWriteModel.Reduce) is outside the repository slice; the tests fix
that creation yields revision 1 and updates can raise revision and swap the
schema, and that deletion clears existence. -/
structure UserSchemaWriteModel where
  id : String
  state : Bool := false
  ty : String := ""
  revision : Nat := 0
  schema : JsonSchema := {}
deriving DecidableEq

/-- True iff a creation event was folded and no deletion event followed. -/
def UserSchemaWriteModel.Exists (wm : UserSchemaWriteModel) : Bool :=
  wm.state

/-- Apply one change of a schema update event. -/
def UserSchemaWriteModel.applyChange (wm : UserSchemaWriteModel) : SchemaChange → UserSchemaWriteModel
  | .increaseRevision n => { wm with revision := wm.revision + n }
  | .changeSchema s => { wm with schema := s }

/-- Fold one schema aggregate event. -/
def UserSchemaWriteModel.reduceEvent (wm : UserSchemaWriteModel) : SchemaEvent → UserSchemaWriteModel
  | .created ty s => { wm with state := true, ty := ty, revision := 1, schema := s }
  | .updated chs => chs.foldl UserSchemaWriteModel.applyChange wm
  | .deleted => { wm with state := false }

/-- Rebuild the user-schema write model from the aggregate's event history. -/
def reduceSchemaEvents (id : String) (events : List SchemaEvent) : UserSchemaWriteModel :=
  events.foldl UserSchemaWriteModel.reduceEvent { id := id }

/-- Write model of one schemauser aggregate (UserV3WriteModel). Modelled from
the spec: the fold is outside the repository slice; existence, schema
reference, data, and the current email address and normalized phone number
are folded from the events, deletion is terminal. -/
structure UserV3WriteModel where
  resourceOwner : String
  id : String
  userExists : Bool := false
  schemaID : String := ""
  schemaRevision : Nat := 0
  data : JsonObj := []
  email : String := ""
  emailVerified : Bool := false
  phone : String := ""
  phoneVerified : Bool := false
deriving DecidableEq

/-- Apply one change of a schemauser update event. -/
def UserV3WriteModel.applyChange (wm : UserV3WriteModel) : UserChange → UserV3WriteModel
  | .schemaID i => { wm with schemaID := i }
  | .schemaRevision r => { wm with schemaRevision := r }
  | .data d => { wm with data := d }

/-- Fold one schemauser event into the write model. -/
def UserV3WriteModel.reduceEvent (wm : UserV3WriteModel) : UserEvent → UserV3WriteModel
  | .created ro sid rev d =>
      { wm with resourceOwner := ro, userExists := true, schemaID := sid,
                schemaRevision := rev, data := d }
  | .updated chs => chs.foldl UserV3WriteModel.applyChange wm
  | .deleted => { wm with userExists := false }
  | .emailUpdated a => { wm with email := a, emailVerified := false }
  | .emailVerified => { wm with emailVerified := true }
  | .emailCodeAdded _ _ _ _ => wm
  | .phoneUpdated n => { wm with phone := n, phoneVerified := false }
  | .phoneVerified => { wm with phoneVerified := true }
  | .phoneCodeAdded _ _ _ => wm

/-- Rebuild a schemauser write model from the aggregate's event history. -/
def reduceUserEvents (resourceOwner id : String) (events : List UserEvent) : UserV3WriteModel :=
  events.foldl UserV3WriteModel.reduceEvent { resourceOwner := resourceOwner, id := id }

/-- A one-time verification code as delivered by the encrypted-code
collaborator: the plaintext and its encrypted form. -/
structure EncryptedCode where
  plain : String
  encrypted : String
  expiry : Nat
deriving DecidableEq

/-- The request context: instance, organisation, and acting user. -/
structure Ctx where
  instanceID : String := ""
  orgID : String := ""
  userID : String := ""
deriving DecidableEq

/-- The Commands collaborators and the event store contents the commands read:
stored events per schemauser aggregate id and per schema aggregate id, the
boolean verdict of the injected permission-check collaborator, the id
generator's pending ids, and the encrypted-code collaborator's next code. -/
structure Commands where
  users : List (String × List UserEvent)
  schemas : List (String × List SchemaEvent)
  permissionAllowed : Bool
  idGenerator : List String
  newCode : Option EncryptedCode
deriving DecidableEq

/-- Events stored for one aggregate id ([] when the stream is empty). -/
def lookupEvents {α : Type} (store : List (String × List α)) (id : String) : List α :=
  match store.find? (fun p => p.1 == id) with
  | some p => p.2
  | none => []

/-- Filter the store for a schemauser aggregate and fold its write model
(getSchemaUserWMForState / getSchemaUserWMByID; each call is one store
filter, counted by the caller). -/
def Commands.getSchemaUserWM (c : Commands) (resourceOwner id : String) : UserV3WriteModel :=
  reduceUserEvents resourceOwner id (lookupEvents c.users id)

/-- Filter the store for a user-schema aggregate and fold its write model. -/
def Commands.getSchemaWriteModelByID (c : Commands) (id : String) : UserSchemaWriteModel :=
  reduceSchemaEvents id (lookupEvents c.schemas id)

/-- Load a user schema and require its existence, failing NotFound
COMMAND-VLDTtxT3If otherwise (existingSchema in user_v3.go). -/
def Commands.existingSchema (c : Commands) (id : String) : Res UserSchemaWriteModel :=
  let wm := c.getSchemaWriteModelByID id
  if wm.Exists = true then .ok wm
  else .err ⟨.notFound, "COMMAND-VLDTtxT3If", "Errors.UserSchema.NotExists"⟩

/-- The role under which the actor writes user data: self when acting on the
own aggregate, owner otherwise. -/
def roleOf (ctx : Ctx) (userID : String) : SchemaRole :=
  if ctx.userID = userID then .selfRole else .owner

/-- Modelled from the spec: the permission check for schemauser commands; a
user acting on themself passes, otherwise the injected collaborator decides,
failing PermissionDenied AUTHZ-HKJD33. -/
def permissionCheck (ctx : Ctx) (userID : String) (allowed : Bool) : Option ZError :=
  if ctx.userID = userID ∨ allowed = true then none
  else some ⟨.permissionDenied, "AUTHZ-HKJD33", "Errors.PermissionDenied"⟩

/-- Events and side-channel codes produced by NewCreate / NewUpdate: the event
delta plus the plaintext email and phone codes to return (empty when not
requested). -/
structure UserEventsOut where
  events : List UserEvent
  codeEmail : String
  codePhone : String
deriving DecidableEq

/-- Modelled from the spec: the email part of the event delta; a verified
address folds to updated+verified, an unverified one to updated plus a code
event persisting only the encrypted code, the plaintext being handed back
exactly when the intent asked for it via ReturnCode. -/
def emailEvents (code : Option EncryptedCode) (e : Email) : Res (List UserEvent × String) :=
  if e.verified = true then .ok ([.emailUpdated e.address, .emailVerified], "")
  else
    match code with
    | none => .err ⟨.internal, "COMMAND-newcode", "Errors.Internal"⟩
    | some cd =>
        .ok ([.emailUpdated e.address,
              .emailCodeAdded cd.encrypted cd.expiry e.urlTemplate e.returnCode],
             if e.returnCode = true then cd.plain else "")

/-- Modelled from the spec: the phone part of the event delta, analogous to
the email part. -/
def phoneEvents (code : Option EncryptedCode) (p : Phone) : Res (List UserEvent × String) :=
  if p.verified = true then .ok ([.phoneUpdated p.number, .phoneVerified], "")
  else
    match code with
    | none => .err ⟨.internal, "COMMAND-newcode", "Errors.Internal"⟩
    | some cd =>
        .ok ([.phoneUpdated p.number, .phoneCodeAdded cd.encrypted cd.expiry p.returnCode],
             if p.returnCode = true then cd.plain else "")

/-- Email delta at creation: absent or empty addresses produce nothing. -/
def optEmailEvents (code : Option EncryptedCode) : Option Email → Res (List UserEvent × String)
  | none => .ok ([], "")
  | some e => if e.address = "" then .ok ([], "") else emailEvents code e

/-- Phone delta at creation: absent or empty numbers produce nothing. -/
def optPhoneEvents (code : Option EncryptedCode) : Option Phone → Res (List UserEvent × String)
  | none => .ok ([], "")
  | some p => if p.number = "" then .ok ([], "") else phoneEvents code p

/-- Email delta at update: a new value equal to the current one is a no-op
and never emits an event. -/
def optEmailEventsUpdate (code : Option EncryptedCode) (cur : String) :
    Option Email → Res (List UserEvent × String)
  | none => .ok ([], "")
  | some e => if e.address = "" ∨ e.address = cur then .ok ([], "") else emailEvents code e

/-- Phone delta at update: a normalized number equal to the current one is a
no-op and never emits an event. -/
def optPhoneEventsUpdate (code : Option EncryptedCode) (cur : String) :
    Option Phone → Res (List UserEvent × String)
  | none => .ok ([], "")
  | some p => if p.number = "" ∨ p.number = cur then .ok ([], "") else phoneEvents code p

/-- Modelled from the spec: UserV3WriteModel.NewCreate is outside the
repository slice; per the tests it requires data (InvalidArgument
COMMAND-7o3ZGxtXUz), authorizes, validates the data against the schema
(PreconditionFailed COMMAND-SlKXqLSeL6), and produces the creation event
referencing the schema and revision, followed by the email and phone
deltas. -/
def UserV3WriteModel.newCreate (wm : UserV3WriteModel) (ctx : Ctx) (allowed : Bool)
    (schemaWM : UserSchemaWriteModel) (data : Option JsonObj)
    (email : Option Email) (phone : Option Phone) (code : Option EncryptedCode) :
    Res UserEventsOut :=
  match data with
  | none => .err ⟨.invalidArgument, "COMMAND-7o3ZGxtXUz", "Errors.User.Invalid"⟩
  | some d =>
    match permissionCheck ctx wm.id allowed with
    | some e => .err e
    | none =>
      if schemaWM.schema.validateData (roleOf ctx wm.id) d = true then
        match optEmailEvents code email with
        | .err e => .err e
        | .ok (evE, cE) =>
          match optPhoneEvents code phone with
          | .err e => .err e
          | .ok (evP, cP) =>
            .ok ⟨.created wm.resourceOwner schemaWM.id schemaWM.revision d :: (evE ++ evP),
                 cE, cP⟩
      else .err ⟨.preconditionFailed, "COMMAND-SlKXqLSeL6", "Errors.UserSchema.Data.Invalid"⟩

/-- Modelled from the spec: UserV3WriteModel.NewDelete is outside the
repository slice; per the tests it requires the folded aggregate to exist
(NotFound COMMAND-syHyCsGmvM), authorizes, and emits the deletion event. -/
def UserV3WriteModel.newDelete (wm : UserV3WriteModel) (ctx : Ctx) (allowed : Bool) :
    Res (List UserEvent) :=
  if wm.userExists = true then
    match permissionCheck ctx wm.id allowed with
    | some e => .err e
    | none => .ok [.deleted]
  else .err ⟨.notFound, "COMMAND-syHyCsGmvM", "Errors.User.NotFound"⟩

/-- The SchemaUser part of a change intent: a new schema reference and new
data. -/
structure SchemaUser where
  schemaID : String := ""
  data : Option JsonObj := none
deriving DecidableEq

/-- Modelled from the spec: the schema-reference and data changes of an
update; a value equal to the folded state produces no change, supplied data
is validated against the resolved schema. -/
def schemaUserChanges (role : SchemaRole) (wm : UserV3WriteModel) :
    Option UserSchemaWriteModel → Option SchemaUser → Res (List UserChange)
  | _, none => .ok []
  | none, some _ => .ok []
  | some sw, some su =>
      let c1 : List UserChange := if sw.id = wm.schemaID then [] else [.schemaID sw.id]
      let c2 : List UserChange :=
        if sw.revision = wm.schemaRevision then [] else [.schemaRevision sw.revision]
      match su.data with
      | none => .ok (c1 ++ c2)
      | some d =>
        if sw.schema.validateData role d = true then
          .ok (c1 ++ c2 ++ (if d = wm.data then [] else [.data d]))
        else .err ⟨.preconditionFailed, "COMMAND-SlKXqLSeL6", "Errors.UserSchema.Data.Invalid"⟩

/-- Modelled from the spec: UserV3WriteModel.NewUpdate is outside the
repository slice; it requires the folded aggregate to exist (NotFound),
authorizes, computes the minimal change set from folded state, and never
emits a no-op event. -/
def UserV3WriteModel.newUpdate (wm : UserV3WriteModel) (ctx : Ctx) (allowed : Bool)
    (schemaWM : Option UserSchemaWriteModel) (su : Option SchemaUser)
    (email : Option Email) (phone : Option Phone) (code : Option EncryptedCode) :
    Res UserEventsOut :=
  if wm.userExists = true then
    match permissionCheck ctx wm.id allowed with
    | some e => .err e
    | none =>
      match schemaUserChanges (roleOf ctx wm.id) wm schemaWM su with
      | .err e => .err e
      | .ok chs =>
        match optEmailEventsUpdate code wm.email email with
        | .err e => .err e
        | .ok (evE, cE) =>
          match optPhoneEventsUpdate code wm.phone phone with
          | .err e => .err e
          | .ok (evP, cP) =>
            .ok ⟨(if chs = [] then [] else [.updated chs]) ++ evE ++ evP, cE, cP⟩
  else .err ⟨.notFound, "COMMAND-NotExisting", "Errors.User.NotFound"⟩

/-- The CreateSchemaUser intent (user_v3.go). -/
structure CreateSchemaUser where
  resourceOwner : String := ""
  id : String := ""
  schemaID : String := ""
  data : Option JsonObj := none
  email : Option Email := none
  phone : Option Phone := none
deriving DecidableEq

/-- Intent-level email validation: only a non-nil, non-empty address is
checked (as in both Valid methods). -/
def validOptEmail : Option Email → Option ZError
  | none => none
  | some e => if e.address = "" then none else Email.validateAddress e.address

/-- CreateSchemaUser.Valid: structural validation, failing fast with
InvalidArgument on a missing resource owner or schema id, then validating
the email address and normalizing the phone number in place. -/
def CreateSchemaUser.valid (s : CreateSchemaUser) : Res CreateSchemaUser :=
  if s.resourceOwner = "" then
    .err ⟨.invalidArgument, "COMMAND-urEJKa1tJM", "Errors.ResourceOwnerMissing"⟩
  else if s.schemaID = "" then
    .err ⟨.invalidArgument, "COMMAND-TFo06JgnF2", "Errors.UserSchema.ID.Missing"⟩
  else
    match validOptEmail s.email with
    | some e => .err e
    | none =>
      match s.phone with
      | none => .ok s
      | some p =>
        if p.number = "" then .ok s
        else
          match Phone.normalizeNumber p.number with
          | .err e => .err e
          | .ok n => .ok { s with phone := some { p with number := n } }

/-- The ChangeSchemaUser intent (user_v3.go). -/
structure ChangeSchemaUser where
  resourceOwner : String := ""
  id : String := ""
  schemaUser : Option SchemaUser := none
  email : Option Email := none
  phone : Option Phone := none
deriving DecidableEq

/-- ChangeSchemaUser.Valid: structural validation, failing fast with
InvalidArgument COMMAND-gEJR1QOGHb on a missing id, then validating the
email address and normalizing the phone number in place. -/
def ChangeSchemaUser.valid (s : ChangeSchemaUser) : Res ChangeSchemaUser :=
  if s.id = "" then .err ⟨.invalidArgument, "COMMAND-gEJR1QOGHb", "Errors.IDMissing"⟩
  else
    match validOptEmail s.email with
    | some e => .err e
    | none =>
      match s.phone with
      | none => .ok s
      | some p =>
        if p.number = "" then .ok s
        else
          match Phone.normalizeNumber p.number with
          | .err e => .err e
          | .ok n => .ok { s with phone := some { p with number := n } }

/-- The consistency token handed back on success. -/
structure ObjectDetails where
  resourceOwner : String := ""
  id : String := ""
deriving DecidableEq

/-- Observable outcome of one command invocation: the result, the events
appended to the store (empty when nothing was pushed), the number of store
filter calls performed, and the returned plaintext codes. -/
structure CmdResult where
  result : Res ObjectDetails
  appended : List UserEvent
  filters : Nat
  returnCodeEmail : Option String := none
  returnCodePhone : Option String := none
deriving DecidableEq

/-- A failed command: nothing appended, the given number of filters done. -/
def mkErr (e : ZError) (filters : Nat) : CmdResult :=
  { result := .err e, appended := [], filters := filters }

/-- A plaintext code is only handed back when non-empty (Go: if code then
assign pointer). -/
def nonEmptyOpt (s : String) : Option String := if s = "" then none else some s

/-- Modelled from the spec: pushAppendAndReduceDetails; an empty delta is an
idempotent no-op returning success without an append, otherwise the events
are appended and folded into the write model whose identity yields the
details. -/
def pushAppendAndReduceDetails (wm : UserV3WriteModel) (events : List UserEvent)
    (filters : Nat) (ce cp : Option String) : CmdResult :=
  let wm2 := events.foldl UserV3WriteModel.reduceEvent wm
  { result := .ok { resourceOwner := wm2.resourceOwner, id := wm2.id },
    appended := events, filters := filters,
    returnCodeEmail := ce, returnCodePhone := cp }

/-- Missing ids are generated via the injected id source. -/
def Commands.resolveUserID (c : Commands) (id : String) : Option String :=
  if id = "" then c.idGenerator.head? else some id

/-- Commands.CreateSchemaUser (user_v3.go): validate, generate the id, load
the target write model (one filter), require the referenced schema (one
filter), ask the write model for the delta, then append. -/
def Commands.createSchemaUser (c : Commands) (ctx : Ctx) (user0 : CreateSchemaUser) :
    CmdResult :=
  match user0.valid with
  | .err e => mkErr e 0
  | .ok user =>
    match c.resolveUserID user.id with
    | none => mkErr ⟨.internal, "ID-generator", "Errors.Internal"⟩ 0
    | some uid =>
      let wm := c.getSchemaUserWM user.resourceOwner uid
      match c.existingSchema user.schemaID with
      | .err e => mkErr e 2
      | .ok sw =>
        match wm.newCreate ctx c.permissionAllowed sw user.data user.email user.phone
            c.newCode with
        | .err e => mkErr e 2
        | .ok out =>
            pushAppendAndReduceDetails wm out.events 2
              (nonEmptyOpt out.codeEmail) (nonEmptyOpt out.codePhone)

/-- Commands.DeleteSchemaUser (user_v3.go): fail InvalidArgument
COMMAND-Vs4wJCME7T on an empty id before touching the store, else load the
write model (one filter), ask it for the deletion delta, then append. -/
def Commands.deleteSchemaUser (c : Commands) (ctx : Ctx) (resourceOwner id : String) :
    CmdResult :=
  if id = "" then mkErr ⟨.invalidArgument, "COMMAND-Vs4wJCME7T", "Errors.IDMissing"⟩ 0
  else
    let wm := c.getSchemaUserWM resourceOwner id
    match wm.newDelete ctx c.permissionAllowed with
    | .err e => mkErr e 1
    | .ok evs => pushAppendAndReduceDetails wm evs 1 none none

/-- The schema id an update resolves to: the already stored one unless the
intent carries a SchemaUser with a non-empty id (user_v3.go lines 155-159). -/
def resolveSchemaID (wm : UserV3WriteModel) : Option SchemaUser → String
  | some su => if su.schemaID = "" then wm.schemaID else su.schemaID
  | none => wm.schemaID

/-- Commands.ChangeSchemaUser after intent validation: load the write model
(one filter); only when a SchemaUser is supplied, resolve the schema id and
require that schema (one more filter); then ask the write model for the
update delta and append it. -/
def Commands.changeSchemaUserValidated (c : Commands) (ctx : Ctx) (user : ChangeSchemaUser) :
    CmdResult :=
  let wm := c.getSchemaUserWM user.resourceOwner user.id
  match user.schemaUser with
  | none =>
      match wm.newUpdate ctx c.permissionAllowed none none user.email user.phone c.newCode with
      | .err e => mkErr e 1
      | .ok out =>
          pushAppendAndReduceDetails wm out.events 1
            (nonEmptyOpt out.codeEmail) (nonEmptyOpt out.codePhone)
  | some su =>
      match c.existingSchema (resolveSchemaID wm (some su)) with
      | .err e => mkErr e 2
      | .ok sw =>
        match wm.newUpdate ctx c.permissionAllowed (some sw) (some su) user.email user.phone
            c.newCode with
        | .err e => mkErr e 2
        | .ok out =>
            pushAppendAndReduceDetails wm out.events 2
              (nonEmptyOpt out.codeEmail) (nonEmptyOpt out.codePhone)

/-- Commands.ChangeSchemaUser (user_v3.go): validate the intent, then run the
update pipeline. -/
def Commands.changeSchemaUser (c : Commands) (ctx : Ctx) (user0 : ChangeSchemaUser) :
    CmdResult :=
  match user0.valid with
  | .err e => mkErr e 0
  | .ok user => c.changeSchemaUserValidated ctx user

/-- A row of the projections.limits read-model table; the natural key is
(instance_id, resource_owner), audit_log_retention is a duration in
nanoseconds. -/
structure LimitsRow where
  instanceID : String
  resourceOwner : String
  sequence : Nat
  aggregateID : String
  auditLogRetention : Option Nat
deriving DecidableEq

/-- A single write statement a projection handler can produce: an upsert or a
delete scoped to the row's natural key, or a raw insert that is not safe
under re-delivery. -/
inductive Statement where
  | upsert (key : String × String) (row : LimitsRow)
  | insertRaw (key : String × String) (row : LimitsRow)
  | deleteRow (key : String × String)
deriving DecidableEq

/-- Payload of a limits set event; auditLogRetention is in nanoseconds. -/
structure LimitsSetPayload where
  auditLogRetention : Option Nat := none
deriving DecidableEq

/-- The two limits aggregate event kinds. -/
inductive LimitsPayload where
  | set (p : LimitsSetPayload)
  | reset
deriving DecidableEq

/-- A limits aggregate event with its store metadata. -/
structure LimitsEvent where
  instanceID : String
  resourceOwner : String
  aggregateID : String
  sequence : Nat
  payload : LimitsPayload
deriving DecidableEq

/-- Modelled from the spec: limitsProjection.reduceLimitsSet is outside the
repository slice; per its test a set event folds to exactly one upsert on
projections.limits keyed by (instance_id, resource_owner) carrying the
retention from the payload, and any other event type is rejected with
InvalidArgument. -/
def reduceLimitsSet (e : LimitsEvent) : Res Statement :=
  match e.payload with
  | .set p =>
      .ok (.upsert (e.instanceID, e.resourceOwner)
        { instanceID := e.instanceID, resourceOwner := e.resourceOwner,
          sequence := e.sequence, aggregateID := e.aggregateID,
          auditLogRetention := p.auditLogRetention })
  | .reset => .err ⟨.invalidArgument, "HANDL-PnyDB", "reduce.wrong.event.type"⟩

/-- Modelled from the spec: limitsProjection.reduceLimitsReset is outside the
repository slice; per its test a reset event folds to exactly one delete of
the row keyed by (instance_id, resource_owner), and any other event type is
rejected with InvalidArgument. -/
def reduceLimitsReset (e : LimitsEvent) : Res Statement :=
  match e.payload with
  | .reset => .ok (.deleteRow (e.instanceID, e.resourceOwner))
  | .set _ => .err ⟨.invalidArgument, "HANDL-WQcEV", "reduce.wrong.event.type"⟩

/-- The limits projection dispatch: each event type maps to its reducer. -/
def limitsReduce (e : LimitsEvent) : Res Statement :=
  match e.payload with
  | .set _ => reduceLimitsSet e
  | .reset => reduceLimitsReset e

/-- The statement batch the limits projection produces for a batch of
events. -/
def limitsStatements (es : List LimitsEvent) : List Statement :=
  es.foldr (fun e acc => match limitsReduce e with
    | .ok s => s :: acc
    | .err _ => acc) []

/-- The limits read-model table as a map from natural key to row. -/
abbrev LimitsTable : Type := String × String → Option LimitsRow

/-- Semantics of one statement on the table: an upsert writes the row at its
key unconditionally, a delete removes the key, a raw insert only takes
effect when the key is absent (the conflicting re-delivery case). -/
def applyStatement (t : LimitsTable) (s : Statement) : LimitsTable :=
  match s with
  | .upsert k r => fun k2 => if k2 = k then some r else t k2
  | .insertRaw k r => fun k2 =>
      if k2 = k then (match t k with | some old => some old | none => some r) else t k2
  | .deleteRow k => fun k2 => if k2 = k then none else t k2

/-- Apply a batch of statements in order. -/
def applyStatements (t : LimitsTable) (ss : List Statement) : LimitsTable :=
  ss.foldl applyStatement t

/-- True for the statements whose effect is keyed and oblivious to the
previous row state: upserts and key-scoped deletes, not raw inserts. -/
def Statement.keyed : Statement → Bool
  | .insertRaw _ _ => false
  | _ => true

/-- The write a keyed statement performs at a key: some (some row) for an
upsert of that key, some none for a delete of that key, none otherwise. -/
def Statement.write (s : Statement) (k : String × String) : Option (Option LimitsRow) :=
  match s with
  | .upsert k2 r => if k = k2 then some (some r) else none
  | .deleteRow k2 => if k = k2 then some none else none
  | .insertRaw _ _ => none

/-- The last write a batch performs at a key, if any. -/
def lastWrite (ss : List Statement) (k : String × String) : Option (Option LimitsRow) :=
  ss.foldr (fun s acc => match acc with | some v => some v | none => s.write k) none

/-- A requested email equals the current folded state (or requests nothing). -/
def emailNoChange (cur : String) : Option Email → Prop
  | none => True
  | some e => e.address = "" ∨ e.address = cur

instance (cur : String) (oe : Option Email) : Decidable (emailNoChange cur oe) := by
  cases oe <;> simp [emailNoChange] <;> infer_instance

/-- A requested phone equals the current folded state (or requests nothing). -/
def phoneNoChange (cur : String) : Option Phone → Prop
  | none => True
  | some p => p.number = "" ∨ p.number = cur

instance (cur : String) (op : Option Phone) : Decidable (phoneNoChange cur op) := by
  cases op <;> simp [phoneNoChange] <;> infer_instance

/-! Concrete fixtures mirroring the unit-test scenarios, used to instantiate
the theorems below. -/

/-- Data payload with a string name attribute. -/
def jName : JsonObj := [("name", JsonVal.str "user1")]

/-- Data payload whose name attribute has the wrong JSON type. -/
def jNameNum : JsonObj := [("name", JsonVal.num 1)]

/-- Schema with one writable string field name. -/
def schemaName : JsonSchema := { fields := [{ name := "name", type := .string }] }

/-- Creation event of user1 under schema id1. -/
def evCreatedUser1 : UserEvent := .created "org1" "id1" 1 jName

/-- Creation event of the schema aggregate named type. -/
def evSchemaCreated : SchemaEvent := .created "type" schemaName

/-- An encrypted verification code with distinct plaintext and ciphertext. -/
def code0 : EncryptedCode := { plain := "plaincode", encrypted := "enccode", expiry := 3600 }

/-- Store with user1 and schema type, all collaborators permissive. -/
def cBase : Commands :=
  { users := [("user1", [evCreatedUser1])],
    schemas := [("type", [evSchemaCreated])],
    permissionAllowed := true,
    idGenerator := ["id1"],
    newCode := some code0 }

/-- Like cBase but with no schema aggregate stored. -/
def cNoSchema : Commands := { cBase with schemas := [] }

/-- Like cBase but the permission collaborator denies. -/
def cDenied : Commands := { cBase with permissionAllowed := false }

/-- Like cBase but user1 has been deleted. -/
def cDeletedUser : Commands := { cBase with users := [("user1", [evCreatedUser1, .deleted])] }

/-- Like cBase but user1 has a verified-pending email and phone on file. -/
def cWithContact : Commands :=
  { cBase with users := [("user1",
      [evCreatedUser1, .emailUpdated "test@example.com", .phoneUpdated "+41791234567"])] }

/-- Like cBase but no schemauser events at all (fresh user id1). -/
def cFresh : Commands := { cBase with users := [] }

/-- An anonymous (system) request context. -/
def ctx0 : Ctx := {}

/-- A well-formed creation intent for schema type. -/
def uOk : CreateSchemaUser := { resourceOwner := "org1", schemaID := "type", data := some jName }

/-- Creation intent whose data has the wrong type for field name. -/
def uBadData : CreateSchemaUser :=
  { resourceOwner := "org1", schemaID := "type", data := some jNameNum }

/-- Creation intent with an unverified email and phone. -/
def uContact : CreateSchemaUser :=
  { resourceOwner := "org1", schemaID := "type", data := some jName,
    email := some { address := "test@example.com", returnCode := true,
                    urlTemplate := "https://example.com/verify" },
    phone := some { number := "+41791234567" } }

/-- Change intent referencing schema type without data. -/
def vSchemaOnly : ChangeSchemaUser :=
  { id := "user1", schemaUser := some { schemaID := "type" } }

/-- Change intent whose data has the wrong type for field name. -/
def vBadData : ChangeSchemaUser :=
  { id := "user1", schemaUser := some { schemaID := "type", data := some jNameNum } }

/-- Change intent with no payload at all. -/
def vBare : ChangeSchemaUser := { id := "user1" }

/-- Change intent requesting exactly the email and phone already on file. -/
def vNoOp : ChangeSchemaUser :=
  { id := "user1",
    email := some { address := "test@example.com", returnCode := true },
    phone := some { number := "+41791234567", returnCode := true } }

/-- Change intent with a new unverified email and phone. -/
def vContact : ChangeSchemaUser :=
  { id := "user1",
    email := some { address := "new@example.com",
                    urlTemplate := "https://example.com/verify" },
    phone := some { number := "+41790000000", returnCode := true } }

/-- SchemaUser part with an empty schema id. -/
def suEmptyID : SchemaUser := { schemaID := "", data := some jName }

/-- Change intent carrying a SchemaUser whose schema id is empty. -/
def vEmptySchemaID : ChangeSchemaUser := { id := "user1", schemaUser := some suEmptyID }

/-- The limits set event of the projection test: 300000000000 ns retention. -/
def limitsSetEvent : LimitsEvent :=
  { instanceID := "instance-id", resourceOwner := "ro-id", aggregateID := "agg-id",
    sequence := 15, payload := .set { auditLogRetention := some 300000000000 } }

/-- The limits reset event of the projection test. -/
def limitsResetEvent : LimitsEvent :=
  { instanceID := "instance-id", resourceOwner := "ro-id", aggregateID := "agg-id",
    sequence := 15, payload := .reset }

/-- An example table state used to instantiate the idempotence theorem. -/
def emptyLimitsTable : LimitsTable := fun _ => none

/-! Helper lemmas: folding events never changes the aggregate id a write
model was opened for. -/

theorem UserV3WriteModel.applyChange_id (wm : UserV3WriteModel) (ch : UserChange) :
    (wm.applyChange ch).id = wm.id := by
  cases ch <;> rfl

theorem foldl_applyChange_id (chs : List UserChange) (wm : UserV3WriteModel) :
    (chs.foldl UserV3WriteModel.applyChange wm).id = wm.id := by
  induction chs generalizing wm with
  | nil => rfl
  | cons ch chs ih => rw [List.foldl_cons, ih, UserV3WriteModel.applyChange_id]

theorem UserV3WriteModel.reduceEvent_id (wm : UserV3WriteModel) (e : UserEvent) :
    (wm.reduceEvent e).id = wm.id := by
  cases e <;> first
    | rfl
    | exact foldl_applyChange_id _ _

theorem foldl_reduceEvent_id (evs : List UserEvent) (wm : UserV3WriteModel) :
    (evs.foldl UserV3WriteModel.reduceEvent wm).id = wm.id := by
  induction evs generalizing wm with
  | nil => rfl
  | cons e evs ih => rw [List.foldl_cons, ih, UserV3WriteModel.reduceEvent_id]

theorem Commands.getSchemaUserWM_id (c : Commands) (ro i : String) :
    (c.getSchemaUserWM ro i).id = i := by
  simpa [Commands.getSchemaUserWM, reduceUserEvents] using
    foldl_reduceEvent_id (lookupEvents c.users i)
      { resourceOwner := ro, id := i }

/-- Claim C1: a CreateSchemaUser intent with empty ResourceOwner or empty
SchemaID, and a DeleteSchemaUser or ChangeSchemaUser intent with empty ID,
each return an InvalidArgument error, with zero store filters and zero
appended events: the store is never touched. -/
theorem invalidArgument_store_untouched
    (c : Commands) (ctx : Ctx) (ro : String) (u : CreateSchemaUser) (v : ChangeSchemaUser)
    (hu : u.resourceOwner = "" ∨ u.schemaID = "") (hv : v.id = "") :
    ((c.createSchemaUser ctx u).result.errKind = some .invalidArgument ∧
      (c.createSchemaUser ctx u).filters = 0 ∧ (c.createSchemaUser ctx u).appended = []) ∧
    ((c.deleteSchemaUser ctx ro "").result.errKind = some .invalidArgument ∧
      (c.deleteSchemaUser ctx ro "").filters = 0 ∧ (c.deleteSchemaUser ctx ro "").appended = []) ∧
    ((c.changeSchemaUser ctx v).result.errKind = some .invalidArgument ∧
      (c.changeSchemaUser ctx v).filters = 0 ∧ (c.changeSchemaUser ctx v).appended = []) := by
  refine ⟨?_, ?_, ?_⟩
  · rcases hu with h | h
    · simp [Commands.createSchemaUser, CreateSchemaUser.valid, h, mkErr, Res.errKind]
    · by_cases h2 : u.resourceOwner = "" <;>
        simp [Commands.createSchemaUser, CreateSchemaUser.valid, h, h2, mkErr, Res.errKind]
  · simp [Commands.deleteSchemaUser, mkErr, Res.errKind]
  · simp [Commands.changeSchemaUser, ChangeSchemaUser.valid, hv, mkErr, Res.errKind]

/-- Witness for C1 at the empty intents. -/
theorem invalidArgument_store_untouched_witness :
    (({} : CreateSchemaUser).resourceOwner = "" ∨ ({} : CreateSchemaUser).schemaID = "") ∧
    ({} : ChangeSchemaUser).id = "" ∧
    (((cBase.createSchemaUser ctx0 {}).result.errKind = some .invalidArgument ∧
      (cBase.createSchemaUser ctx0 {}).filters = 0 ∧
      (cBase.createSchemaUser ctx0 {}).appended = []) ∧
    ((cBase.deleteSchemaUser ctx0 "org1" "").result.errKind = some .invalidArgument ∧
      (cBase.deleteSchemaUser ctx0 "org1" "").filters = 0 ∧
      (cBase.deleteSchemaUser ctx0 "org1" "").appended = []) ∧
    ((cBase.changeSchemaUser ctx0 {}).result.errKind = some .invalidArgument ∧
      (cBase.changeSchemaUser ctx0 {}).filters = 0 ∧
      (cBase.changeSchemaUser ctx0 {}).appended = [])) :=
  ⟨Or.inl rfl, rfl,
   invalidArgument_store_untouched cBase ctx0 "org1" {} {} (Or.inl rfl) rfl⟩

/-- Claim C2: a CreateSchemaUser intent, and a ChangeSchemaUser intent that
carries a SchemaUser, each fail with NotFound and append nothing when the
referenced user schema aggregate does not exist. -/
theorem missing_schema_notFound
    (c : Commands) (ctx : Ctx) (u u2 : CreateSchemaUser) (uid : String)
    (v v2 : ChangeSchemaUser) (su : SchemaUser)
    (hval : u.valid = .ok u2) (hid : c.resolveUserID u2.id = some uid)
    (hns : (c.getSchemaWriteModelByID u2.schemaID).Exists = false)
    (hvalv : v.valid = .ok v2) (hsu : v2.schemaUser = some su)
    (hns2 : (c.getSchemaWriteModelByID
        (resolveSchemaID (c.getSchemaUserWM v2.resourceOwner v2.id) (some su))).Exists
      = false) :
    ((c.createSchemaUser ctx u).result.errKind = some .notFound ∧
      (c.createSchemaUser ctx u).appended = []) ∧
    ((c.changeSchemaUser ctx v).result.errKind = some .notFound ∧
      (c.changeSchemaUser ctx v).appended = []) := by
  constructor
  · simp [Commands.createSchemaUser, hval, hid, Commands.existingSchema, hns, mkErr,
      Res.errKind]
  · simp [Commands.changeSchemaUser, hvalv, Commands.changeSchemaUserValidated, hsu,
      Commands.existingSchema, hns2, mkErr, Res.errKind]

/-- Witness for C2 on a store without the referenced schema. -/
theorem missing_schema_notFound_witness :
    (uOk.valid = .ok uOk ∧ cNoSchema.resolveUserID uOk.id = some "id1" ∧
      (cNoSchema.getSchemaWriteModelByID uOk.schemaID).Exists = false ∧
      vSchemaOnly.valid = .ok vSchemaOnly ∧
      vSchemaOnly.schemaUser = some { schemaID := "type" } ∧
      (cNoSchema.getSchemaWriteModelByID
        (resolveSchemaID
          (cNoSchema.getSchemaUserWM vSchemaOnly.resourceOwner vSchemaOnly.id)
          (some { schemaID := "type" }))).Exists = false) ∧
    (((cNoSchema.createSchemaUser ctx0 uOk).result.errKind = some .notFound ∧
      (cNoSchema.createSchemaUser ctx0 uOk).appended = []) ∧
    ((cNoSchema.changeSchemaUser ctx0 vSchemaOnly).result.errKind = some .notFound ∧
      (cNoSchema.changeSchemaUser ctx0 vSchemaOnly).appended = [])) :=
  ⟨⟨by decide, by decide, by decide, by decide, by decide, by decide⟩,
   missing_schema_notFound cNoSchema ctx0 uOk uOk "id1" vSchemaOnly vSchemaOnly
     { schemaID := "type" } (by decide) (by decide) (by decide) (by decide) (by decide)
     (by decide)⟩

/-- Claim C3: a CreateSchemaUser or ChangeSchemaUser intent whose data
violates the referenced schema (wrong field type, field not writable for the
acting role, or an attribute forbidden by additionalProperties) fails with
PreconditionFailed and appends nothing. -/
theorem invalid_data_preconditionFailed
    (c : Commands) (ctx : Ctx) (u u2 : CreateSchemaUser) (uid : String)
    (sw : UserSchemaWriteModel) (d : JsonObj)
    (v v2 : ChangeSchemaUser) (su : SchemaUser) (sw2 : UserSchemaWriteModel) (d2 : JsonObj)
    (hval : u.valid = .ok u2) (hid : c.resolveUserID u2.id = some uid)
    (hex : c.existingSchema u2.schemaID = .ok sw)
    (hd : u2.data = some d)
    (hperm : permissionCheck ctx uid c.permissionAllowed = none)
    (hbad : sw.schema.validateData (roleOf ctx uid) d = false)
    (hvalv : v.valid = .ok v2) (hsu : v2.schemaUser = some su) (hd2 : su.data = some d2)
    (hex2 : c.existingSchema
        (resolveSchemaID (c.getSchemaUserWM v2.resourceOwner v2.id) (some su)) = .ok sw2)
    (hu : (c.getSchemaUserWM v2.resourceOwner v2.id).userExists = true)
    (hperm2 : permissionCheck ctx v2.id c.permissionAllowed = none)
    (hbad2 : sw2.schema.validateData (roleOf ctx v2.id) d2 = false) :
    ((c.createSchemaUser ctx u).result.errKind = some .preconditionFailed ∧
      (c.createSchemaUser ctx u).appended = []) ∧
    ((c.changeSchemaUser ctx v).result.errKind = some .preconditionFailed ∧
      (c.changeSchemaUser ctx v).appended = []) := by
  constructor
  · simp [Commands.createSchemaUser, hval, hid, hex, UserV3WriteModel.newCreate, hd,
      Commands.getSchemaUserWM_id, hperm, hbad, mkErr, Res.errKind]
  · simp [Commands.changeSchemaUser, hvalv, Commands.changeSchemaUserValidated, hsu, hex2,
      UserV3WriteModel.newUpdate, hu, Commands.getSchemaUserWM_id, hperm2,
      schemaUserChanges, hd2, hbad2, mkErr, Res.errKind]

/-- Witness for C3: data with the wrong JSON type for a declared field. -/
theorem invalid_data_preconditionFailed_witness :
    (uBadData.valid = .ok uBadData ∧ cBase.resolveUserID uBadData.id = some "id1" ∧
      cBase.existingSchema uBadData.schemaID = .ok (cBase.getSchemaWriteModelByID "type") ∧
      uBadData.data = some jNameNum ∧
      permissionCheck ctx0 "id1" cBase.permissionAllowed = none ∧
      (cBase.getSchemaWriteModelByID "type").schema.validateData (roleOf ctx0 "id1") jNameNum
        = false ∧
      vBadData.valid = .ok vBadData ∧
      vBadData.schemaUser = some { schemaID := "type", data := some jNameNum } ∧
      (({ schemaID := "type", data := some jNameNum } : SchemaUser)).data = some jNameNum ∧
      cBase.existingSchema
        (resolveSchemaID (cBase.getSchemaUserWM vBadData.resourceOwner vBadData.id)
          (some { schemaID := "type", data := some jNameNum }))
        = .ok (cBase.getSchemaWriteModelByID "type") ∧
      (cBase.getSchemaUserWM vBadData.resourceOwner vBadData.id).userExists = true ∧
      permissionCheck ctx0 vBadData.id cBase.permissionAllowed = none ∧
      (cBase.getSchemaWriteModelByID "type").schema.validateData (roleOf ctx0 vBadData.id)
        jNameNum = false) ∧
    (((cBase.createSchemaUser ctx0 uBadData).result.errKind = some .preconditionFailed ∧
      (cBase.createSchemaUser ctx0 uBadData).appended = []) ∧
    ((cBase.changeSchemaUser ctx0 vBadData).result.errKind = some .preconditionFailed ∧
      (cBase.changeSchemaUser ctx0 vBadData).appended = [])) :=
  ⟨⟨by decide, by decide, by decide, by decide, by decide, by decide, by decide, by decide,
    by decide, by decide, by decide, by decide, by decide⟩,
   invalid_data_preconditionFailed cBase ctx0 uBadData uBadData "id1"
     (cBase.getSchemaWriteModelByID "type") jNameNum vBadData vBadData
     { schemaID := "type", data := some jNameNum } (cBase.getSchemaWriteModelByID "type")
     jNameNum (by decide) (by decide) (by decide) (by decide) (by decide) (by decide)
     (by decide) (by decide) (by decide) (by decide) (by decide) (by decide) (by decide)⟩

/-- Claim C4: when the injected permission-check collaborator denies the
action on a foreign aggregate, CreateSchemaUser, ChangeSchemaUser and
DeleteSchemaUser each return PermissionDenied and append no events. -/
theorem denied_permission_no_append
    (c : Commands) (ctx : Ctx) (ro i : String) (u u2 : CreateSchemaUser) (uid : String)
    (sw : UserSchemaWriteModel) (d : JsonObj) (v v2 : ChangeSchemaUser)
    (hdeny : c.permissionAllowed = false)
    (hval : u.valid = .ok u2) (hid : c.resolveUserID u2.id = some uid)
    (hex : c.existingSchema u2.schemaID = .ok sw) (hd : u2.data = some d)
    (hne : ¬ ctx.userID = uid)
    (hvalv : v.valid = .ok v2) (hsu : v2.schemaUser = none)
    (hu : (c.getSchemaUserWM v2.resourceOwner v2.id).userExists = true)
    (hne2 : ¬ ctx.userID = v2.id)
    (hi : ¬ i = "") (hu2 : (c.getSchemaUserWM ro i).userExists = true)
    (hne3 : ¬ ctx.userID = i) :
    ((c.createSchemaUser ctx u).result.errKind = some .permissionDenied ∧
      (c.createSchemaUser ctx u).appended = []) ∧
    ((c.changeSchemaUser ctx v).result.errKind = some .permissionDenied ∧
      (c.changeSchemaUser ctx v).appended = []) ∧
    ((c.deleteSchemaUser ctx ro i).result.errKind = some .permissionDenied ∧
      (c.deleteSchemaUser ctx ro i).appended = []) := by
  refine ⟨?_, ?_, ?_⟩
  · simp [Commands.createSchemaUser, hval, hid, hex, UserV3WriteModel.newCreate, hd,
      Commands.getSchemaUserWM_id, permissionCheck, hne, hdeny, mkErr, Res.errKind]
  · simp [Commands.changeSchemaUser, hvalv, Commands.changeSchemaUserValidated, hsu,
      UserV3WriteModel.newUpdate, hu, Commands.getSchemaUserWM_id, permissionCheck, hne2,
      hdeny, mkErr, Res.errKind]
  · simp [Commands.deleteSchemaUser, hi, UserV3WriteModel.newDelete, hu2,
      Commands.getSchemaUserWM_id, permissionCheck, hne3, hdeny, mkErr, Res.errKind]

/-- Witness for C4 with a denying collaborator and a foreign actor. -/
theorem denied_permission_no_append_witness :
    (cDenied.permissionAllowed = false ∧
      uOk.valid = .ok uOk ∧ cDenied.resolveUserID uOk.id = some "id1" ∧
      cDenied.existingSchema uOk.schemaID = .ok (cDenied.getSchemaWriteModelByID "type") ∧
      uOk.data = some jName ∧ ¬ ctx0.userID = "id1" ∧
      vBare.valid = .ok vBare ∧ vBare.schemaUser = none ∧
      (cDenied.getSchemaUserWM vBare.resourceOwner vBare.id).userExists = true ∧
      ¬ ctx0.userID = vBare.id ∧
      ¬ ("user1" : String) = "" ∧
      (cDenied.getSchemaUserWM "org1" "user1").userExists = true ∧
      ¬ ctx0.userID = "user1") ∧
    (((cDenied.createSchemaUser ctx0 uOk).result.errKind = some .permissionDenied ∧
      (cDenied.createSchemaUser ctx0 uOk).appended = []) ∧
    ((cDenied.changeSchemaUser ctx0 vBare).result.errKind = some .permissionDenied ∧
      (cDenied.changeSchemaUser ctx0 vBare).appended = []) ∧
    ((cDenied.deleteSchemaUser ctx0 "org1" "user1").result.errKind = some .permissionDenied ∧
      (cDenied.deleteSchemaUser ctx0 "org1" "user1").appended = [])) :=
  ⟨⟨by decide, by decide, by decide, by decide, by decide, by decide, by decide, by decide,
    by decide, by decide, by decide, by decide, by decide⟩,
   denied_permission_no_append cDenied ctx0 "org1" "user1" uOk uOk "id1"
     (cDenied.getSchemaWriteModelByID "type") jName vBare vBare (by decide) (by decide)
     (by decide) (by decide) (by decide) (by decide) (by decide) (by decide) (by decide)
     (by decide) (by decide) (by decide) (by decide)⟩

/-- Claim C5: a ChangeSchemaUser intent whose requested email and phone both
equal the current folded write-model state emits zero events, performs no
append, and returns success with the object details. -/
theorem noop_change_zero_events
    (c : Commands) (ctx : Ctx) (v v2 : ChangeSchemaUser)
    (hval : v.valid = .ok v2) (hsu : v2.schemaUser = none)
    (hu : (c.getSchemaUserWM v2.resourceOwner v2.id).userExists = true)
    (hperm : permissionCheck ctx v2.id c.permissionAllowed = none)
    (hem : emailNoChange (c.getSchemaUserWM v2.resourceOwner v2.id).email v2.email)
    (hph : phoneNoChange (c.getSchemaUserWM v2.resourceOwner v2.id).phone v2.phone) :
    (c.changeSchemaUser ctx v).appended = [] ∧
    (c.changeSchemaUser ctx v).result =
      .ok { resourceOwner := (c.getSchemaUserWM v2.resourceOwner v2.id).resourceOwner,
            id := v2.id } := by
  have he : optEmailEventsUpdate c.newCode (c.getSchemaUserWM v2.resourceOwner v2.id).email
      v2.email = .ok ([], "") := by
    cases hv2e : v2.email with
    | none => rfl
    | some e =>
        rw [hv2e] at hem
        simp only [emailNoChange] at hem
        simp [optEmailEventsUpdate, hem]
  have hp : optPhoneEventsUpdate c.newCode (c.getSchemaUserWM v2.resourceOwner v2.id).phone
      v2.phone = .ok ([], "") := by
    cases hv2p : v2.phone with
    | none => rfl
    | some p =>
        rw [hv2p] at hph
        simp only [phoneNoChange] at hph
        simp [optPhoneEventsUpdate, hph]
  simp [Commands.changeSchemaUser, hval, Commands.changeSchemaUserValidated, hsu,
    UserV3WriteModel.newUpdate, hu, Commands.getSchemaUserWM_id, hperm, schemaUserChanges,
    he, hp, pushAppendAndReduceDetails, nonEmptyOpt]

/-- Witness for C5: requesting the email and phone already on file. -/
theorem noop_change_zero_events_witness :
    (vNoOp.valid = .ok vNoOp ∧ vNoOp.schemaUser = none ∧
      (cWithContact.getSchemaUserWM vNoOp.resourceOwner vNoOp.id).userExists = true ∧
      permissionCheck ctx0 vNoOp.id cWithContact.permissionAllowed = none ∧
      emailNoChange (cWithContact.getSchemaUserWM vNoOp.resourceOwner vNoOp.id).email
        vNoOp.email ∧
      phoneNoChange (cWithContact.getSchemaUserWM vNoOp.resourceOwner vNoOp.id).phone
        vNoOp.phone) ∧
    ((cWithContact.changeSchemaUser ctx0 vNoOp).appended = [] ∧
      (cWithContact.changeSchemaUser ctx0 vNoOp).result =
        .ok { resourceOwner :=
                (cWithContact.getSchemaUserWM vNoOp.resourceOwner vNoOp.id).resourceOwner,
              id := vNoOp.id }) :=
  ⟨⟨by decide, by decide, by decide, by decide, by decide, by decide⟩,
   noop_change_zero_events cWithContact ctx0 vNoOp vNoOp (by decide) (by decide) (by decide)
     (by decide) (by decide) (by decide)⟩

/-- Claim C6: once the folded event history of a schemauser aggregate shows no
live creation (never created, or a deletion event followed), DeleteSchemaUser
and ChangeSchemaUser both fail with NotFound and append nothing. -/
theorem deleted_aggregate_commands_notFound
    (c : Commands) (ctx : Ctx) (ro i : String) (v v2 : ChangeSchemaUser)
    (hi : ¬ i = "")
    (hnu : (c.getSchemaUserWM ro i).userExists = false)
    (hval : v.valid = .ok v2)
    (hnu2 : (c.getSchemaUserWM v2.resourceOwner v2.id).userExists = false) :
    ((c.deleteSchemaUser ctx ro i).result.errKind = some .notFound ∧
      (c.deleteSchemaUser ctx ro i).appended = []) ∧
    ((c.changeSchemaUser ctx v).result.errKind = some .notFound ∧
      (c.changeSchemaUser ctx v).appended = []) := by
  constructor
  · simp [Commands.deleteSchemaUser, hi, UserV3WriteModel.newDelete, hnu, mkErr, Res.errKind]
  · cases hsu : v2.schemaUser with
    | none =>
        simp [Commands.changeSchemaUser, hval, Commands.changeSchemaUserValidated, hsu,
          UserV3WriteModel.newUpdate, hnu2, mkErr, Res.errKind]
    | some su =>
        by_cases hex : (c.getSchemaWriteModelByID
            (resolveSchemaID (c.getSchemaUserWM v2.resourceOwner v2.id) (some su))).Exists
            = true
        · simp [Commands.changeSchemaUser, hval, Commands.changeSchemaUserValidated, hsu,
            Commands.existingSchema, hex, UserV3WriteModel.newUpdate, hnu2, mkErr,
            Res.errKind]
        · simp [Commands.changeSchemaUser, hval, Commands.changeSchemaUserValidated, hsu,
            Commands.existingSchema, hex, UserV3WriteModel.newUpdate, hnu2, mkErr,
            Res.errKind]

/-- Witness for C6 on a store whose user1 has been deleted. -/
theorem deleted_aggregate_commands_notFound_witness :
    (¬ ("user1" : String) = "" ∧
      (cDeletedUser.getSchemaUserWM "org1" "user1").userExists = false ∧
      vBare.valid = .ok vBare ∧
      (cDeletedUser.getSchemaUserWM vBare.resourceOwner vBare.id).userExists = false) ∧
    (((cDeletedUser.deleteSchemaUser ctx0 "org1" "user1").result.errKind = some .notFound ∧
      (cDeletedUser.deleteSchemaUser ctx0 "org1" "user1").appended = []) ∧
    ((cDeletedUser.changeSchemaUser ctx0 vBare).result.errKind = some .notFound ∧
      (cDeletedUser.changeSchemaUser ctx0 vBare).appended = [])) :=
  ⟨⟨by decide, by decide, by decide, by decide⟩,
   deleted_aggregate_commands_notFound cDeletedUser ctx0 "org1" "user1" vBare vBare
     (by decide) (by decide) (by decide) (by decide)⟩

/-- Claim C7: the limits fold maps the set event with auditLogRetention
300000000000 nanoseconds to exactly one upsert keyed by
(instance_id, resource_owner) whose retention argument equals 5 minutes,
and the reset event to exactly one delete of that key. -/
theorem limits_fold_concrete_scenario :
    reduceLimitsSet limitsSetEvent =
      .ok (.upsert ("instance-id", "ro-id")
        { instanceID := "instance-id", resourceOwner := "ro-id", sequence := 15,
          aggregateID := "agg-id", auditLogRetention := some (5 * 60 * 1000000000) }) ∧
    reduceLimitsReset limitsResetEvent = .ok (.deleteRow ("instance-id", "ro-id")) := by
  constructor <;> rfl

/-! Helper lemmas for the idempotence of keyed statement batches. -/

theorem applyStatements_eq_lastWrite (ss : List Statement)
    (hk : ∀ s ∈ ss, s.keyed = true) (t : LimitsTable) (k : String × String) :
    applyStatements t ss k =
      (match lastWrite ss k with | some v => v | none => t k) := by
  induction ss generalizing t with
  | nil => rfl
  | cons s ss ih =>
      have hs : s.keyed = true := hk s (List.mem_cons_self s ss)
      have hss : ∀ x ∈ ss, x.keyed = true := fun x hx => hk x (List.mem_cons_of_mem s hx)
      show applyStatements (applyStatement t s) ss k = _
      rw [ih hss]
      have hlw : lastWrite (s :: ss) k =
          (match lastWrite ss k with | some v => some v | none => s.write k) := rfl
      rw [hlw]
      cases hrest : lastWrite ss k with
      | some v => rfl
      | none =>
          cases s with
          | upsert k2 r =>
              by_cases hkk : k = k2
              · simp [applyStatement, Statement.write, hkk]
              · simp [applyStatement, Statement.write, hkk, Ne.symm hkk]
          | insertRaw k2 r => simp [Statement.keyed] at hs
          | deleteRow k2 =>
              by_cases hkk : k = k2
              · simp [applyStatement, Statement.write, hkk]
              · simp [applyStatement, Statement.write, hkk, Ne.symm hkk]

theorem applyStatements_idem (ss : List Statement)
    (hk : ∀ s ∈ ss, s.keyed = true) (t : LimitsTable) :
    applyStatements (applyStatements t ss) ss = applyStatements t ss := by
  funext k
  rw [applyStatements_eq_lastWrite ss hk (applyStatements t ss) k]
  cases h : lastWrite ss k with
  | some v => rw [applyStatements_eq_lastWrite ss hk t k, h]
  | none => rfl

theorem limitsReduce_keyed (e : LimitsEvent) (s : Statement)
    (h : limitsReduce e = .ok s) : s.keyed = true := by
  cases hp : e.payload with
  | set p =>
      simp [limitsReduce, hp, reduceLimitsSet] at h
      rw [← h]
      rfl
  | reset =>
      simp [limitsReduce, hp, reduceLimitsReset] at h
      rw [← h]
      rfl

theorem limitsStatements_keyed (es : List LimitsEvent) :
    ∀ s ∈ limitsStatements es, s.keyed = true := by
  induction es with
  | nil => intro s hs; simp [limitsStatements] at hs
  | cons e es ih =>
      intro s hs
      have hcons : limitsStatements (e :: es) =
          (match limitsReduce e with
            | .ok s2 => s2 :: limitsStatements es
            | .err _ => limitsStatements es) := rfl
      rw [hcons] at hs
      cases h : limitsReduce e with
      | ok s2 =>
          rw [h] at hs
          rcases List.mem_cons.mp hs with h2 | h2
          · subst h2; exact limitsReduce_keyed e s h
          · exact ih s h2
      | err z =>
          rw [h] at hs
          exact ih s hs

/-- Claim C8: every statement the limits projection produces is a keyed
upsert or a keyed delete, never a raw insert, and therefore applying the
same statement batch twice leaves the table exactly as applying it once. -/
theorem limits_statements_idempotent (es : List LimitsEvent) (t : LimitsTable) :
    (limitsStatements es).all Statement.keyed = true ∧
    applyStatements (applyStatements t (limitsStatements es)) (limitsStatements es) =
      applyStatements t (limitsStatements es) := by
  have hk := limitsStatements_keyed es
  constructor
  · rw [List.all_eq_true]
    exact hk
  · exact applyStatements_idem (limitsStatements es) hk t

/-- Witness for C8 at the two concrete limits events and the empty table. -/
theorem limits_statements_idempotent_witness :
    (limitsStatements [limitsSetEvent, limitsResetEvent]).all Statement.keyed = true ∧
    applyStatements
        (applyStatements emptyLimitsTable
          (limitsStatements [limitsSetEvent, limitsResetEvent]))
        (limitsStatements [limitsSetEvent, limitsResetEvent]) =
      applyStatements emptyLimitsTable (limitsStatements [limitsSetEvent, limitsResetEvent]) :=
  limits_statements_idempotent [limitsSetEvent, limitsResetEvent] emptyLimitsTable

/-- Claim C9: for CreateSchemaUser and ChangeSchemaUser with an unverified
email and phone, the appended code events carry exactly the encrypted form of
the generated code, and the plaintext is returned to the caller if and only
if the intent requested it via ReturnCode. -/
theorem verification_code_encrypted_return_iff
    (c : Commands) (ctx : Ctx) (u u2 : CreateSchemaUser) (uid : String)
    (sw : UserSchemaWriteModel) (d : JsonObj) (e : Email) (p : Phone) (cd : EncryptedCode)
    (v v2 : ChangeSchemaUser) (e2 : Email) (p2 : Phone)
    (hcd : c.newCode = some cd) (hcdp : ¬ cd.plain = "")
    (hval : u.valid = .ok u2) (hid : c.resolveUserID u2.id = some uid)
    (hex : c.existingSchema u2.schemaID = .ok sw) (hd : u2.data = some d)
    (hperm : permissionCheck ctx uid c.permissionAllowed = none)
    (hok : sw.schema.validateData (roleOf ctx uid) d = true)
    (hem : u2.email = some e) (he1 : ¬ e.address = "") (he2 : e.verified = false)
    (hph : u2.phone = some p) (hp1 : ¬ p.number = "") (hp2 : p.verified = false)
    (hvalv : v.valid = .ok v2) (hsuv : v2.schemaUser = none)
    (huv : (c.getSchemaUserWM v2.resourceOwner v2.id).userExists = true)
    (hpermv : permissionCheck ctx v2.id c.permissionAllowed = none)
    (hemv : v2.email = some e2) (hev1 : ¬ e2.address = "")
    (hev2 : ¬ e2.address = (c.getSchemaUserWM v2.resourceOwner v2.id).email)
    (hev3 : e2.verified = false)
    (hphv : v2.phone = some p2) (hpv1 : ¬ p2.number = "")
    (hpv2 : ¬ p2.number = (c.getSchemaUserWM v2.resourceOwner v2.id).phone)
    (hpv3 : p2.verified = false) :
    ((c.createSchemaUser ctx u).appended =
      [.created (c.getSchemaUserWM u2.resourceOwner uid).resourceOwner sw.id sw.revision d,
       .emailUpdated e.address,
       .emailCodeAdded cd.encrypted cd.expiry e.urlTemplate e.returnCode,
       .phoneUpdated p.number,
       .phoneCodeAdded cd.encrypted cd.expiry p.returnCode] ∧
     (c.createSchemaUser ctx u).returnCodeEmail =
       (if e.returnCode = true then some cd.plain else none) ∧
     (c.createSchemaUser ctx u).returnCodePhone =
       (if p.returnCode = true then some cd.plain else none)) ∧
    ((c.changeSchemaUser ctx v).appended =
      [.emailUpdated e2.address,
       .emailCodeAdded cd.encrypted cd.expiry e2.urlTemplate e2.returnCode,
       .phoneUpdated p2.number,
       .phoneCodeAdded cd.encrypted cd.expiry p2.returnCode] ∧
     (c.changeSchemaUser ctx v).returnCodeEmail =
       (if e2.returnCode = true then some cd.plain else none) ∧
     (c.changeSchemaUser ctx v).returnCodePhone =
       (if p2.returnCode = true then some cd.plain else none)) := by
  constructor
  · simp only [Commands.createSchemaUser, hval, hid, hex, UserV3WriteModel.newCreate, hd,
      Commands.getSchemaUserWM_id, hperm, hok, optEmailEvents, hem, he1, emailEvents, he2,
      hcd, optPhoneEvents, hph, hp1, phoneEvents, hp2, pushAppendAndReduceDetails,
      nonEmptyOpt, if_false, if_true]
    cases hrc : e.returnCode <;> cases hrp : p.returnCode <;>
      simp [hrc, hrp, hcdp, nonEmptyOpt]
  · simp only [Commands.changeSchemaUser, hvalv, Commands.changeSchemaUserValidated, hsuv,
      UserV3WriteModel.newUpdate, huv, Commands.getSchemaUserWM_id, hpermv,
      schemaUserChanges, optEmailEventsUpdate, hemv, hev1, hev2, emailEvents, hev3, hcd,
      optPhoneEventsUpdate, hphv, hpv1, hpv2, phoneEvents, hpv3,
      pushAppendAndReduceDetails, nonEmptyOpt]
    cases hrc : e2.returnCode <;> cases hrp : p2.returnCode <;>
      simp [hrc, hrp, hcdp, nonEmptyOpt]

/-- Witness for C9: a creation requesting the email code back and a change
requesting the phone code back. -/
theorem verification_code_encrypted_return_iff_witness :
    ((cWithContact.createSchemaUser ctx0 uContact).appended =
      [.created (cWithContact.getSchemaUserWM uContact.resourceOwner "id1").resourceOwner
         (cWithContact.getSchemaWriteModelByID "type").id
         (cWithContact.getSchemaWriteModelByID "type").revision jName,
       .emailUpdated "test@example.com",
       .emailCodeAdded code0.encrypted code0.expiry "https://example.com/verify" true,
       .phoneUpdated "+41791234567",
       .phoneCodeAdded code0.encrypted code0.expiry false] ∧
     (cWithContact.createSchemaUser ctx0 uContact).returnCodeEmail =
       (if true = true then some code0.plain else none) ∧
     (cWithContact.createSchemaUser ctx0 uContact).returnCodePhone =
       (if false = true then some code0.plain else none)) ∧
    ((cWithContact.changeSchemaUser ctx0 vContact).appended =
      [.emailUpdated "new@example.com",
       .emailCodeAdded code0.encrypted code0.expiry "https://example.com/verify" false,
       .phoneUpdated "+41790000000",
       .phoneCodeAdded code0.encrypted code0.expiry true] ∧
     (cWithContact.changeSchemaUser ctx0 vContact).returnCodeEmail =
       (if false = true then some code0.plain else none) ∧
     (cWithContact.changeSchemaUser ctx0 vContact).returnCodePhone =
       (if true = true then some code0.plain else none)) :=
  verification_code_encrypted_return_iff cWithContact ctx0 uContact uContact "id1"
    (cWithContact.getSchemaWriteModelByID "type") jName
    { address := "test@example.com", returnCode := true,
      urlTemplate := "https://example.com/verify" }
    { number := "+41791234567" } code0 vContact vContact
    { address := "new@example.com", urlTemplate := "https://example.com/verify" }
    { number := "+41790000000", returnCode := true }
    (by decide) (by decide) (by decide) (by decide) (by decide) (by decide) (by decide)
    (by decide) (by decide) (by decide) (by decide) (by decide) (by decide) (by decide)
    (by decide) (by decide) (by decide) (by decide) (by decide) (by decide) (by decide)
    (by decide) (by decide) (by decide) (by decide) (by decide)

/-- Claim C10: a ChangeSchemaUser carrying a SchemaUser with an empty
SchemaID behaves exactly as if the schema id already stored in the write
model had been supplied, and when no SchemaUser is carried, no schema lookup
happens: the single store filter is the user write-model load. -/
theorem empty_schemaID_resolves_to_stored_schema
    (c : Commands) (ctx : Ctx) (v : ChangeSchemaUser) (su : SchemaUser) :
    (v.schemaUser = some su → su.schemaID = "" →
      c.changeSchemaUserValidated ctx v =
        c.changeSchemaUserValidated ctx
          { v with
            schemaUser := some { su with schemaID := (c.getSchemaUserWM v.resourceOwner v.id).schemaID } }) ∧
    (v.schemaUser = none → (c.changeSchemaUserValidated ctx v).filters = 1) := by
  constructor
  · intro hsu hsid
    simp only [Commands.changeSchemaUserValidated, hsu]
    have hres : resolveSchemaID (c.getSchemaUserWM v.resourceOwner v.id) (some su) =
        (c.getSchemaUserWM v.resourceOwner v.id).schemaID := by
      simp [resolveSchemaID, hsid]
    have hres2 : resolveSchemaID (c.getSchemaUserWM v.resourceOwner v.id)
        (some { su with schemaID := (c.getSchemaUserWM v.resourceOwner v.id).schemaID }) =
        (c.getSchemaUserWM v.resourceOwner v.id).schemaID := by
      simp [resolveSchemaID]
    rw [hres, hres2]
    cases hE : c.existingSchema (c.getSchemaUserWM v.resourceOwner v.id).schemaID with
    | err z => rfl
    | ok sw =>
        simp only [UserV3WriteModel.newUpdate, schemaUserChanges]
  · intro hnone
    simp only [Commands.changeSchemaUserValidated, hnone]
    cases hU : (c.getSchemaUserWM v.resourceOwner v.id).newUpdate ctx c.permissionAllowed
        none none v.email v.phone c.newCode with
    | err z => rfl
    | ok out => rfl

/-- Witness for C10: an empty schema id resolves to the stored one, and a
bare change performs a single filter. -/
theorem empty_schemaID_resolves_to_stored_schema_witness :
    (vEmptySchemaID.schemaUser = some suEmptyID ∧ suEmptyID.schemaID = "" ∧
      cBase.changeSchemaUserValidated ctx0 vEmptySchemaID =
        cBase.changeSchemaUserValidated ctx0
          { vEmptySchemaID with
            schemaUser := some { suEmptyID with schemaID := (cBase.getSchemaUserWM vEmptySchemaID.resourceOwner vEmptySchemaID.id).schemaID } }) ∧
    (vBare.schemaUser = none ∧
      (cBase.changeSchemaUserValidated ctx0 vBare).filters = 1) :=
  ⟨⟨rfl, rfl,
    (empty_schemaID_resolves_to_stored_schema cBase ctx0 vEmptySchemaID suEmptyID).1 rfl rfl⟩,
   ⟨rfl, (empty_schemaID_resolves_to_stored_schema cBase ctx0 vBare suEmptyID).2 rfl⟩⟩

end Zitadel
